import Mathlib

/-!
Verification of the SmartAttend attendance-processing pipeline.

The definitions below are a shallow embedding of the attendance-matching
code of this repository:

* the `POST /api/process-attendance` handler of the simple backend server
  (`src/unnamed/part_009`, lines 100-221), which parses the posted CSV
  text, builds a prompt for the external DeepSeek oracle from the student
  directory and the first ten data rows, and returns the oracle-reported
  matches unchanged;
* the `AttendanceController` of the TypeScript backend
  (`src/unnamed/part_002`): `uploadFile` (lines 379-453) and
  `processFileAsync` (lines 887-970), which own the
  PENDING/PROCESSING/COMPLETED/FAILED lifecycle of one uploaded file;
* the default AI confidence threshold of
  `src/smartattend-backend/src/config/env.ts` (line 70).

Strings from the JavaScript code are embedded as `List Char`; JS numbers
carrying confidence scores are embedded as `ℚ`, with the JS value `NaN`
(which arises from the unguarded `0 / 0` in the handler) represented as
`none : Option ℚ`.
-/

namespace Smartattend

/-- The characters removed by JavaScript `String.prototype.trim` that can
occur in the ASCII inputs of this pipeline (JS also trims further Unicode
space characters, which never appear in the embedded claims). -/
def jsWhitespace (c : Char) : Bool :=
  c = ' ' || c = '\t' || c = '\n' || c = '\r'

/-- `cell.trim()` from `src/unnamed/part_009` line 115: remove leading and
trailing whitespace. -/
def jsTrim (l : List Char) : List Char :=
  ((l.dropWhile jsWhitespace).reverse.dropWhile jsWhitespace).reverse

/-- `.replace(/^"|"$/g, '')` from `src/unnamed/part_009` line 115: the
regex removes one double quote at the start of the string and one double
quote at its end (each anchor matches at most once). -/
def stripQuotes (l : List Char) : List Char :=
  let l1 := if l.head? = some '"' then l.tail else l
  if l1.getLast? = some '"' then l1.dropLast else l1

/-- The per-cell cleaning `cell.trim().replace(/^"|"$/g, '')` applied to
every CSV cell (`src/unnamed/part_009` line 115). -/
def cleanCell (cell : List Char) : List Char :=
  stripQuotes (jsTrim cell)

/-- `csvData.split('\\n')` from `src/unnamed/part_009` line 114.  The JS
source splits on the literal two-character sequence backslash-`n` (the
string literal in the source is `'\\n'`), so the separator here is
`['\\', 'n']`. -/
def splitRows : List Char → List (List Char)
  | '\\' :: 'n' :: cs => [] :: splitRows cs
  | c :: cs =>
    match splitRows cs with
    | [] => [[c]]
    | w :: ws => (c :: w) :: ws
  | [] => [[]]

/-- `row.split(',')` from `src/unnamed/part_009` line 115. -/
def splitCells : List Char → List (List Char)
  | ',' :: cs => [] :: splitCells cs
  | c :: cs =>
    match splitCells cs with
    | [] => [[c]]
    | w :: ws => (c :: w) :: ws
  | [] => [[]]

/-- The CSV parsing of `src/unnamed/part_009` lines 114-116: split the
posted text into rows, split each row into cells, clean every cell, and
keep only the rows that have at least one nonempty cell
(`.filter(row => row.some(cell => cell.length > 0))`). -/
def parseRows (csvData : List Char) : List (List (List Char)) :=
  ((splitRows csvData).map (fun row => (splitCells row).map cleanCell)).filter
    (fun row => row.any (fun cell => !cell.isEmpty))

/-- A directory entry of the student database
(`src/unnamed/part_009` lines 129-135). -/
structure Student where
  id : Nat
  name : String
  email : String
deriving DecidableEq

/-- The hard-coded sample student database used when the request supplies
no students (`src/unnamed/part_009` lines 129-135). -/
def sampleStudents : List Student :=
  [⟨1, "John Smith", "john.smith@university.edu"⟩,
   ⟨2, "Emily Johnson", "emily.johnson@university.edu"⟩,
   ⟨3, "Michael Brown", "michael.brown@university.edu"⟩,
   ⟨4, "Sarah Davis", "sarah.davis@university.edu"⟩,
   ⟨5, "David Wilson", "david.wilson@university.edu"⟩]

/-- One entry of the `matches` array of the oracle's JSON answer
(`src/unnamed/part_009` lines 157-165). -/
structure MatchRec where
  originalName : String
  studentId : String
  studentName : String
  confidence : ℚ
  method : String
deriving DecidableEq

/-- One entry of the `unmatched` array of the oracle's JSON answer
(`src/unnamed/part_009` lines 166-171). -/
structure UnmatchedRec where
  originalName : String
  reason : String
deriving DecidableEq

/-- The object obtained by `JSON.parse` of the oracle's answer
(`src/unnamed/part_009` line 187).  A field is `none` when the parsed
JSON object lacks it (JS `undefined`), which the handler's `|| []` and
truthiness checks treat differently from a present-but-empty array. -/
structure AiResult where
  matchList : Option (List MatchRec)
  unmatchedList : Option (List UnmatchedRec)
deriving DecidableEq

/-- The information the handler embeds into the oracle prompt
(`src/unnamed/part_009` lines 138-172): the student database, the CSV
headers, and `dataRows.slice(0, 10)` — only the first ten data rows. -/
structure OraclePrompt where
  students : List Student
  headers : List (List Char)
  rows : List (List (List Char))
deriving DecidableEq

/-- The outcome of one `deepseek.chat.completions.create` call plus the
JSON extraction of `src/unnamed/part_009` lines 174-191:
`Except.error e` is a thrown error (oracle unreachable, timeout — caught
only by the handler's outer catch); `Except.ok none` is a received
response whose text contains no parsable JSON object (the inner catch /
missing-JSON fallback); `Except.ok (some r)` is a response parsed to `r`. -/
abbrev OracleOutcome := Except String (Option AiResult)

/-- The `data` object of the handler's success response
(`src/unnamed/part_009` lines 196-204).  `confidence = none` embeds the
JS value `NaN`. -/
structure ProcData where
  totalRows : Nat
  headers : List (List Char)
  matchList : List MatchRec
  unmatchedList : List UnmatchedRec
  confidence : Option ℚ
deriving DecidableEq

/-- The handler's HTTP outcome: a 200 success payload, a 400 client
error, or the 500 outer-catch error (`src/unnamed/part_009`
lines 104-123 and 213-220). -/
inductive ApiOutcome
  | ok (d : ProcData)
  | clientError (msg : String)
  | serverError (msg : String)
deriving DecidableEq

/-- JS division of the confidence sum by the match count.  The only
reachable zero-divisor case is `0 / 0`, whose JS value is `NaN`,
embedded as `none`. -/
def jsDiv (num : ℚ) (den : Nat) : Option ℚ :=
  if den = 0 then none else some (num / den)

/-- `aiResult.matches.reduce((sum, m) => sum + m.confidence, 0)`
(`src/unnamed/part_009` line 202). -/
def sumConf (ms : List MatchRec) : ℚ :=
  ms.foldl (fun s m => s + m.confidence) 0

/-- `aiResult.matches ? aiResult.matches.reduce(...) / aiResult.matches.length : 0`
(`src/unnamed/part_009` lines 201-202).  A present array — even an empty
one — is truthy in JS, so a present empty `matches` list divides by zero
and yields `NaN` (`none`); only an absent field falls back to `0`. -/
def overallConfidence (matchesField : Option (List MatchRec)) : Option ℚ :=
  match matchesField with
  | some ms => jsDiv (sumConf ms) ms.length
  | none => some 0

/-- The prompt the handler sends to the oracle
(`src/unnamed/part_009` lines 129-145): the posted students when
nonempty, else the sample database; the header row; and
`dataRows.slice(0, 10)`. -/
def promptOf (csvData : List Char) (students : List Student) : OraclePrompt :=
  { students := if students.isEmpty then sampleStudents else students
    headers := (parseRows csvData).headD []
    rows := ((parseRows csvData).drop 1).take 10 }

/-- The `POST /api/process-attendance` handler
(`src/unnamed/part_009` lines 100-221), as a function of the posted CSV
text, the posted student list, and the oracle's behaviour on the prompt
it is sent.  Control flow follows the source exactly: missing CSV is a
400; fewer than two surviving rows is a 400; a thrown oracle error hits
the outer catch (500); an unparsable oracle response degrades to the
fallback `{ matches: [], unmatched: [] }`; and the parsed result is
returned unchanged (`aiResult.matches || []`,
`aiResult.unmatched || []`). -/
def processAttendance (csvData : List Char) (students : List Student)
    (oracleFn : OraclePrompt → OracleOutcome) : ApiOutcome :=
  if csvData.isEmpty then ApiOutcome.clientError "CSV data is required"
  else
    let rows := parseRows csvData
    if rows.length < 2 then
      ApiOutcome.clientError "CSV must contain headers and at least one data row"
    else
      let headers := rows.headD []
      let dataRows := rows.drop 1
      match oracleFn (promptOf csvData students) with
      | Except.error e => ApiOutcome.serverError e
      | Except.ok parsed =>
        let aiResult := parsed.getD ⟨some [], some []⟩
        ApiOutcome.ok
          { totalRows := dataRows.length
            headers := headers
            matchList := aiResult.matchList.getD []
            unmatchedList := aiResult.unmatchedList.getD []
            confidence := overallConfidence aiResult.matchList }

/-- Default of `AI_CONFIDENCE_THRESHOLD` in
`src/smartattend-backend/src/config/env.ts` line 70 (`'0.7'`). -/
def aiConfidenceThresholdDefault : ℚ := 7 / 10

/-- `processingStatus` values of a `fileUpload` record
(`src/unnamed/part_002`). -/
inductive ProcessingStatus
  | PENDING
  | PROCESSING
  | COMPLETED
  | FAILED
deriving DecidableEq

/-- The sequence of `processingStatus` values written for one file,
in order, by `AttendanceController` (`src/unnamed/part_002`):
`PENDING` at creation (line 425), `PROCESSING` when `processFileAsync`
starts (line 892), then `COMPLETED` on success (line 948) or `FAILED`
when the matching service throws (line 962). -/
def statusHistory (serviceOutcome : Except String Unit) : List ProcessingStatus :=
  [ProcessingStatus.PENDING, ProcessingStatus.PROCESSING,
   (match serviceOutcome with
    | Except.ok _ => ProcessingStatus.COMPLETED
    | Except.error _ => ProcessingStatus.FAILED)]

/-- A stored `fileUpload` record, reduced to the fields the lifecycle
claims need (`src/unnamed/part_002` lines 416-427). -/
structure FileUpload where
  id : Nat
  processingStatus : ProcessingStatus
deriving DecidableEq

/-- A fresh record id, distinct from every id in the store (the database
generates a new primary key for each `prisma.fileUpload.create`,
`src/unnamed/part_002` line 416). -/
def freshId (store : List FileUpload) : Nat :=
  store.foldl (fun m j => max m (j.id + 1)) 0

/-- `uploadFile` (`src/unnamed/part_002` lines 379-453): every upload —
including a re-upload of the same file — creates a brand-new
`fileUpload` record with status `PENDING` and hands its id to
`processFileAsync`; no existing record is touched. -/
def uploadFile (store : List FileUpload) : List FileUpload × Nat :=
  (store ++ [⟨freshId store, ProcessingStatus.PENDING⟩], freshId store)

/-! Concrete request payloads used to evaluate the handler.  The row
separator inside them is the literal backslash-`n` pair that the
handler's `split('\\n')` consumes. -/

/-- A header-only upload: a valid header row and zero data rows. -/
def csvHeaderOnly : List Char := "Name,Email,Status".toList

/-- A file with a `Name` header and two data rows. -/
def csvTwoRows : List Char := "Name\\nAlice\\nBob".toList

/-- A file whose single data row carries an email equal to a sample
student's email. -/
def csvExact : List Char :=
  "Name,Email\\nJohn Smith,john.smith@university.edu".toList

/-- A file whose data row has fewer cells than the header row. -/
def csvShortRow : List Char := "a,b,c\\nx,y".toList

/-- A file whose data row consists solely of empty cells. -/
def csvEmptyCellsRow : List Char := "a,b,c\\n,".toList

/-- An oracle-reported match whose confidence is far below the default
acceptance threshold. -/
def lowMatch : MatchRec :=
  { originalName := "Jon"
    studentId := "1"
    studentName := "John Smith"
    confidence := 1 / 10
    method := "pattern" }

/-- A parsed oracle answer carrying the single low-confidence match. -/
def aiLow : AiResult := ⟨some [lowMatch], some []⟩

/-- A parsed oracle answer with empty match and unmatched lists. -/
def aiEmpty : AiResult := ⟨some [], some []⟩

/-! ### Helper lemmas -/

/-- Dropping a prefix of `p`-characters is idempotent. -/
theorem dropWhile_dropWhile (p : Char → Bool) (l : List Char) :
    (l.dropWhile p).dropWhile p = l.dropWhile p := by
  induction l with
  | nil => rfl
  | cons c t ih =>
    by_cases h : p c
    · simpa [List.dropWhile, h] using ih
    · simp [List.dropWhile, h]

/-- The head of a `dropWhile p` result does not satisfy `p`. -/
theorem head_dropWhile_not (p : Char → Bool) (l : List Char) (c : Char)
    (h : (l.dropWhile p).head? = some c) : p c = false := by
  induction l with
  | nil => simp [List.dropWhile] at h
  | cons a t ih =>
    cases hpa : p a with
    | true => exact ih (by simpa [List.dropWhile, hpa] using h)
    | false =>
      have hd : (a :: t).dropWhile p = a :: t := by
        simp [List.dropWhile, hpa]
      rw [hd, List.head?_cons, Option.some.injEq] at h
      rw [← h]
      exact hpa

/-- A nonempty `dropWhile` result keeps the last element of the list. -/
theorem getLast?_dropWhile (p : Char → Bool) (l : List Char)
    (h : l.dropWhile p ≠ []) : (l.dropWhile p).getLast? = l.getLast? := by
  induction l with
  | nil => simp [List.dropWhile] at h
  | cons a t ih =>
    by_cases ha : p a
    · have hd : (a :: t).dropWhile p = t.dropWhile p := by
        simp [List.dropWhile, ha]
      rw [hd] at h ⊢
      rcases t with _ | ⟨b, u⟩
      · simp [List.dropWhile] at h
      · rw [ih h, List.getLast?_cons_cons]
    · simp [List.dropWhile, ha]

/-- The last element of a list is a member of it. -/
theorem mem_of_getLast?_eq (l : List Char) (c : Char)
    (h : l.getLast? = some c) : c ∈ l := by
  induction l with
  | nil => simp [List.getLast?] at h
  | cons a t ih =>
    cases t with
    | nil =>
      simp [List.getLast?] at h
      simp [h]
    | cons b u =>
      rw [List.getLast?_cons_cons] at h
      exact List.mem_cons_of_mem _ (ih h)

/-- `jsTrim` only removes characters: membership is preserved. -/
theorem mem_of_mem_jsTrim (l : List Char) (c : Char) (h : c ∈ jsTrim l) :
    c ∈ l := by
  unfold jsTrim at h
  rw [List.mem_reverse] at h
  have h1 := (List.dropWhile_sublist jsWhitespace).mem h
  rw [List.mem_reverse] at h1
  exact (List.dropWhile_sublist jsWhitespace).mem h1

/-- `jsTrim` is idempotent: a second trim removes nothing. -/
theorem jsTrim_idem (l : List Char) : jsTrim (jsTrim l) = jsTrim l := by
  unfold jsTrim
  by_cases hbe : (l.dropWhile jsWhitespace).reverse.dropWhile jsWhitespace = []
  · rw [hbe]
    simp
  · set a := l.dropWhile jsWhitespace with ha
    set b := a.reverse.dropWhile jsWhitespace with hb
    have hhead : b.reverse.head? = a.head? := by
      rw [List.head?_reverse, getLast?_dropWhile jsWhitespace a.reverse hbe,
        List.getLast?_reverse]
    have hdrop1 : b.reverse.dropWhile jsWhitespace = b.reverse := by
      rcases hr : b.reverse with _ | ⟨d, v⟩
      · rfl
      · have hd : a.head? = some d := by rw [← hhead, hr, List.head?_cons]
        have hfail : jsWhitespace d = false :=
          head_dropWhile_not jsWhitespace l d hd
        simp [List.dropWhile, hfail]
    rw [hdrop1, List.reverse_reverse, hb,
      dropWhile_dropWhile jsWhitespace a.reverse]

/-- The head of a list is a member of it. -/
theorem mem_of_head?_eq (l : List Char) (c : Char)
    (h : l.head? = some c) : c ∈ l := by
  rcases l with _ | ⟨a, t⟩
  · simp at h
  · rw [List.head?_cons, Option.some.injEq] at h
    rw [← h]
    exact List.mem_cons_self a t

/-- On a list containing no double quote, `stripQuotes` is the
identity. -/
theorem stripQuotes_of_no_quote (l : List Char) (h : '"' ∉ l) :
    stripQuotes l = l := by
  have h1 : l.head? ≠ some '"' := fun he => h (mem_of_head?_eq l '"' he)
  have h2 : l.getLast? ≠ some '"' := fun he => h (mem_of_getLast?_eq l '"' he)
  simp [stripQuotes, h1, h2]

/-- The accumulator is a lower bound of the `freshId` fold. -/
theorem le_foldl_fresh (l : List FileUpload) (a : Nat) :
    a ≤ l.foldl (fun m j => max m (j.id + 1)) a := by
  induction l generalizing a with
  | nil => exact le_refl a
  | cons k t ih =>
    exact le_trans (le_max_left a (k.id + 1)) (ih (max a (k.id + 1)))

/-- A member's id is strictly below the `freshId` fold for any
accumulator. -/
theorem id_lt_foldl_fresh (l : List FileUpload) (j : FileUpload) :
    j ∈ l → ∀ a : Nat, j.id < l.foldl (fun m k => max m (k.id + 1)) a := by
  induction l with
  | nil =>
    intro hj
    cases hj
  | cons k t ih =>
    intro hj a
    rcases List.mem_cons.mp hj with h | h
    · subst h
      calc j.id < j.id + 1 := Nat.lt_succ_self _
        _ ≤ max a (j.id + 1) := le_max_right _ _
        _ ≤ _ := le_foldl_fresh t _
    · exact ih h _

/-- Every stored id is strictly below the fresh id. -/
theorem id_lt_freshId (store : List FileUpload) (j : FileUpload)
    (hj : j ∈ store) : j.id < freshId store :=
  id_lt_foldl_fresh store j hj 0

/-- A `fileUpload` record already marked COMPLETED, used as a concrete
store entry. -/
def completedJob : FileUpload := ⟨0, ProcessingStatus.COMPLETED⟩

/-! ### Claim C1 — oracle failure handling -/

/-- C1, counterexample.  The claim says an oracle timeout is a soft
failure and the job still completes.  In the code, a thrown oracle error
reaches the outer catch and the request fails with a 500 error, and in
the async controller a thrown service error drives the job to FAILED. -/
theorem C1_counterexample :
    processAttendance csvExact [] (fun _ => Except.error "oracle timeout") =
      ApiOutcome.serverError "oracle timeout" ∧
    (statusHistory (Except.error "oracle timeout")).getLast? =
      some ProcessingStatus.FAILED := by
  decide

/-- C1, amended.  Only an unparsable oracle response is a soft failure:
the handler then completes with empty match lists (and a NaN overall
confidence).  A thrown oracle error (unavailable, timeout) makes the
request fail with a 500, and a thrown service error in the async
controller ends the job FAILED, not COMPLETED. -/
theorem C1_amended_oracle_error_fails (csv : List Char) (st : List Student)
    (e : String) (hne : csv ≠ []) (h2 : 2 ≤ (parseRows csv).length) :
    processAttendance csv st (fun _ => Except.ok none) =
      ApiOutcome.ok ⟨(parseRows csv).length - 1, (parseRows csv).headD [],
        [], [], none⟩ ∧
    processAttendance csv st (fun _ => Except.error e) =
      ApiOutcome.serverError e ∧
    (statusHistory (Except.error e)).getLast? =
      some ProcessingStatus.FAILED := by
  have hcsv : csv.isEmpty = false := by
    cases csv
    · exact absurd rfl hne
    · rfl
  have hlt : ¬ (parseRows csv).length < 2 := Nat.not_lt.mpr h2
  refine ⟨?_, ?_, rfl⟩
  · simp [processAttendance, hcsv, hlt, overallConfidence, jsDiv, sumConf,
      List.length_drop]
  · simp [processAttendance, hcsv, hlt]

/-- C1, witness for the amended theorem at a concrete file. -/
theorem C1_witness :
    processAttendance csvTwoRows [] (fun _ => Except.ok none) =
      ApiOutcome.ok ⟨(parseRows csvTwoRows).length - 1,
        (parseRows csvTwoRows).headD [], [], [], none⟩ ∧
    processAttendance csvTwoRows [] (fun _ => Except.error "timeout") =
      ApiOutcome.serverError "timeout" ∧
    (statusHistory (Except.error "timeout")).getLast? =
      some ProcessingStatus.FAILED :=
  C1_amended_oracle_error_fails csvTwoRows [] "timeout" (by decide) (by decide)

/-! ### Claim C2 — one MatchResult per row -/

/-- C2, counterexample.  A file with two data rows whose oracle response
is unparsable completes successfully with zero match results, so a
COMPLETED job does not carry one MatchResult per input row. -/
theorem C2_counterexample :
    processAttendance csvTwoRows [] (fun _ => Except.ok none) =
      ApiOutcome.ok ⟨2, [['N', 'a', 'm', 'e']], [], [], none⟩ ∧
    ¬ (([] : List MatchRec).length + ([] : List UnmatchedRec).length = 2) := by
  decide

/-- C2, amended.  A successful result reports `totalRows` equal to the
number of data rows, but its `matches` and `unmatched` lists are exactly
the oracle-reported lists — possibly empty, with no per-row guarantee —
and the oracle prompt carries only the first ten data rows
(`dataRows.slice(0, 10)`). -/
theorem C2_amended_result_counts (csv : List Char) (st : List Student)
    (f : OraclePrompt → OracleOutcome) (r : Option AiResult)
    (hne : csv ≠ []) (h2 : 2 ≤ (parseRows csv).length)
    (hf : f (promptOf csv st) = Except.ok r) :
    (promptOf csv st).rows = ((parseRows csv).drop 1).take 10 ∧
    processAttendance csv st f = ApiOutcome.ok
      { totalRows := (parseRows csv).length - 1
        headers := (parseRows csv).headD []
        matchList := (r.getD ⟨some [], some []⟩).matchList.getD []
        unmatchedList := (r.getD ⟨some [], some []⟩).unmatchedList.getD []
        confidence := overallConfidence (r.getD ⟨some [], some []⟩).matchList } := by
  have hcsv : csv.isEmpty = false := by
    cases csv
    · exact absurd rfl hne
    · rfl
  have hlt : ¬ (parseRows csv).length < 2 := Nat.not_lt.mpr h2
  exact ⟨rfl, by simp [processAttendance, hcsv, hlt, hf, List.length_drop]⟩

/-- C2, witness for the amended theorem at a concrete file. -/
theorem C2_witness :
    (promptOf csvTwoRows []).rows = ((parseRows csvTwoRows).drop 1).take 10 ∧
    processAttendance csvTwoRows [] (fun _ => Except.ok none) = ApiOutcome.ok
      { totalRows := (parseRows csvTwoRows).length - 1
        headers := (parseRows csvTwoRows).headD []
        matchList := ((none : Option AiResult).getD ⟨some [], some []⟩).matchList.getD []
        unmatchedList := ((none : Option AiResult).getD ⟨some [], some []⟩).unmatchedList.getD []
        confidence := overallConfidence
          ((none : Option AiResult).getD ⟨some [], some []⟩).matchList } :=
  C2_amended_result_counts csvTwoRows [] _ none (by decide) (by decide) rfl

/-! ### Claim C3 — exact email matching -/

/-- C3, counterexample.  The file's data row carries an email that is
exactly a sample student's email, yet with the oracle unavailable the
request fails outright, and with the oracle reporting no matches the
completed result contains no `Matched` entry at all: there is no in-code
exact-match stage. -/
theorem C3_counterexample :
    (sampleStudents.any fun s => s.email = "john.smith@university.edu") = true ∧
    processAttendance csvExact [] (fun _ => Except.error "oracle unavailable") =
      ApiOutcome.serverError "oracle unavailable" ∧
    processAttendance csvExact [] (fun _ => Except.ok (some aiEmpty)) =
      ApiOutcome.ok ⟨1, [['N', 'a', 'm', 'e'], ['E', 'm', 'a', 'i', 'l']],
        [], [], none⟩ := by
  decide

/-- C3, amended.  Matching is delegated entirely to the oracle: when the
oracle call throws, the handler returns an error — no exact email or
identifier lookup produces a match — and every match in a successful
response is one the oracle reported. -/
theorem C3_amended_oracle_delegation (csv : List Char) (st : List Student)
    (hne : csv ≠ []) (h2 : 2 ≤ (parseRows csv).length) :
    (∀ e : String, processAttendance csv st (fun _ => Except.error e) =
      ApiOutcome.serverError e) ∧
    (∀ (f : OraclePrompt → OracleOutcome) (r : AiResult) (d : ProcData),
      f (promptOf csv st) = Except.ok (some r) →
      processAttendance csv st f = ApiOutcome.ok d →
      ∀ m ∈ d.matchList, m ∈ r.matchList.getD []) := by
  have hcsv : csv.isEmpty = false := by
    cases csv
    · exact absurd rfl hne
    · rfl
  have hlt : ¬ (parseRows csv).length < 2 := Nat.not_lt.mpr h2
  constructor
  · intro e
    simp [processAttendance, hcsv, hlt]
  · intro f r d hf hd m hm
    have hrun : processAttendance csv st f = ApiOutcome.ok
        { totalRows := ((parseRows csv).drop 1).length
          headers := (parseRows csv).headD []
          matchList := r.matchList.getD []
          unmatchedList := r.unmatchedList.getD []
          confidence := overallConfidence r.matchList } := by
      simp [processAttendance, hcsv, hlt, hf]
    rw [hrun] at hd
    injection hd with hd'
    rw [← hd'] at hm
    exact hm

/-- C3, witness for the amended theorem at a concrete file. -/
theorem C3_witness :
    processAttendance csvExact [] (fun _ => Except.error "down") =
      ApiOutcome.serverError "down" :=
  (C3_amended_oracle_delegation csvExact [] (by decide) (by decide)).1 "down"

/-! ### Claim C4 — confidence threshold -/

/-- C4, counterexample.  An oracle-reported match with confidence 0.1 —
far below the default threshold 0.7 of `AI_CONFIDENCE_THRESHOLD` — is
accepted into the completed result unchanged. -/
theorem C4_counterexample :
    processAttendance csvTwoRows [] (fun _ => Except.ok (some aiLow)) =
      ApiOutcome.ok ⟨2, [['N', 'a', 'm', 'e']], [lowMatch], [],
        jsDiv (sumConf [lowMatch]) 1⟩ ∧
    lowMatch.confidence < aiConfidenceThresholdDefault := by
  constructor
  · rfl
  · norm_num [lowMatch, aiConfidenceThresholdDefault]

/-- C4, amended.  The handler accepts the oracle's matches unfiltered:
whatever list of matches the oracle reports becomes the result's match
list verbatim; no confidence-threshold check is applied anywhere. -/
theorem C4_amended_unfiltered_acceptance (csv : List Char) (st : List Student)
    (f : OraclePrompt → OracleOutcome) (ms : List MatchRec)
    (u : Option (List UnmatchedRec))
    (hne : csv ≠ []) (h2 : 2 ≤ (parseRows csv).length)
    (hf : f (promptOf csv st) = Except.ok (some ⟨some ms, u⟩)) :
    ∃ d : ProcData, processAttendance csv st f = ApiOutcome.ok d ∧
      d.matchList = ms := by
  have hcsv : csv.isEmpty = false := by
    cases csv
    · exact absurd rfl hne
    · rfl
  have hlt : ¬ (parseRows csv).length < 2 := Nat.not_lt.mpr h2
  refine ⟨{ totalRows := ((parseRows csv).drop 1).length
            headers := (parseRows csv).headD []
            matchList := ms
            unmatchedList := u.getD []
            confidence := overallConfidence (some ms) }, ?_, rfl⟩
  simp [processAttendance, hcsv, hlt, hf]

/-- C4, witness for the amended theorem at a concrete file. -/
theorem C4_witness :
    ∃ d : ProcData, processAttendance csvTwoRows []
        (fun _ => Except.ok (some aiLow)) = ApiOutcome.ok d ∧
      d.matchList = [lowMatch] :=
  C4_amended_unfiltered_acceptance csvTwoRows [] _ [lowMatch] (some [])
    (by decide) (by decide) rfl

/-! ### Claim C5 — normalization idempotence -/

/-- C5, counterexample.  Cleaning the cell `" x"` (quote, space, x,
quote) once yields `space x`; cleaning again trims the exposed space, so
the cleaning applied to raw cells is not idempotent. -/
theorem C5_counterexample :
    cleanCell (cleanCell ('"' :: ' ' :: 'x' :: '"' :: [])) ≠
      cleanCell ('"' :: ' ' :: 'x' :: '"' :: []) := by
  decide

/-- C5, amended.  The cleaning is total (it is a plain function on
strings), and it is idempotent on every input that contains no double
quote; in general a stripped quote can expose further whitespace or
quotes, so a second application can strip further. -/
theorem C5_amended_idempotent_without_quotes (l : List Char)
    (h : '"' ∉ l) : cleanCell (cleanCell l) = cleanCell l := by
  have ht : '"' ∉ jsTrim l := fun hm => h (mem_of_mem_jsTrim l '"' hm)
  have h1 : cleanCell l = jsTrim l := stripQuotes_of_no_quote (jsTrim l) ht
  rw [h1]
  unfold cleanCell
  rw [jsTrim_idem, stripQuotes_of_no_quote (jsTrim l) ht]

/-- C5, witness for the amended theorem at a concrete cell. -/
theorem C5_witness :
    cleanCell (cleanCell "  ab  ".toList) = cleanCell "  ab  ".toList :=
  C5_amended_idempotent_without_quotes _ (by decide)

/-! ### Claim C6 — determinism -/

/-- C6, counterexample.  Two runs on the identical file, identical
student directory (and the identical default threshold, which the
handler never reads) produce different results when the sampled oracle
replies differ, so the result is not a function of file, directory and
threshold alone. -/
theorem C6_counterexample :
    processAttendance csvTwoRows [] (fun _ => Except.ok (some aiLow)) ≠
      processAttendance csvTwoRows [] (fun _ => Except.ok (some aiEmpty)) := by
  decide

/-- C6, amended.  The handler is a deterministic function of the CSV
text, the posted student list, and the oracle's reply to the prompt
built from them: two runs that receive the same reply at that prompt
produce identical results.  The oracle reply itself comes from a
temperature-sampled remote model, so identical files need not yield
identical results. -/
theorem C6_amended_deterministic_given_reply (csv : List Char)
    (st : List Student) (f g : OraclePrompt → OracleOutcome)
    (hfg : f (promptOf csv st) = g (promptOf csv st)) :
    processAttendance csv st f = processAttendance csv st g := by
  by_cases hcsv : csv.isEmpty
  · simp [processAttendance, hcsv]
  · by_cases hlt : (parseRows csv).length < 2
    · simp [processAttendance, hcsv, hlt]
    · simp [processAttendance, hcsv, hlt, hfg]

/-- C6, witness: two syntactically different oracle functions that agree
on the prompt actually sent produce the same result. -/
theorem C6_witness :
    processAttendance csvTwoRows [] (fun _ => Except.ok none) =
      processAttendance csvTwoRows []
        (fun p => if p.rows = [] then Except.error "empty" else Except.ok none) :=
  C6_amended_deterministic_given_reply csvTwoRows [] _ _
    (by rw [if_neg (by decide : ¬ (promptOf csvTwoRows []).rows = [])])

/-! ### Claim C7 — zero data rows -/

/-- C7.  A nonempty file that parses to fewer than two rows — in
particular a valid header with zero data rows — is rejected with the
fatal "CSV must contain headers and at least one data row" error; it is
never reported as a successful completion with zero results. -/
theorem C7_no_data_rows_fails (csv : List Char) (st : List Student)
    (f : OraclePrompt → OracleOutcome)
    (hne : csv ≠ []) (hlt : (parseRows csv).length < 2) :
    processAttendance csv st f =
      ApiOutcome.clientError
        "CSV must contain headers and at least one data row" := by
  have hcsv : csv.isEmpty = false := by
    cases csv
    · exact absurd rfl hne
    · rfl
  simp [processAttendance, hcsv, hlt]

/-- C7, witness at a header-only file. -/
theorem C7_witness :
    processAttendance csvHeaderOnly [] (fun _ => Except.ok none) =
      ApiOutcome.clientError
        "CSV must contain headers and at least one data row" :=
  C7_no_data_rows_fails csvHeaderOnly [] _ (by decide) (by decide)

/-! ### Claim C8 — row padding -/

/-- C8, counterexample.  The data row `x,y` under the header `a,b,c` is
kept with two cells — it is not padded to the header's three cells —
and the data row `,` (all cells empty) is dropped from the row sequence
entirely. -/
theorem C8_counterexample :
    parseRows csvShortRow = [[['a'], ['b'], ['c']], [['x'], ['y']]] ∧
    ¬ (∀ row ∈ (parseRows csvShortRow).drop 1,
        row.length = ((parseRows csvShortRow).headD []).length) ∧
    parseRows csvEmptyCellsRow = [[['a'], ['b'], ['c']]] := by
  decide

/-- C8, amended.  Parsed rows keep their own cell counts — no padding to
the header count is applied — and the parser keeps exactly the rows with
at least one nonempty cell, in order, dropping all-empty rows: the
parsed row list is a sublist of the split-and-cleaned lines, and every
kept row has a nonempty cell. -/
theorem C8_amended_rows_kept_unpadded (csv : List Char) :
    (∀ row ∈ parseRows csv, ∃ c ∈ row, c ≠ []) ∧
    List.Sublist (parseRows csv)
      ((splitRows csv).map fun r => (splitCells r).map cleanCell) := by
  constructor
  · intro row hrow
    have hany := List.of_mem_filter hrow
    rcases List.any_eq_true.mp hany with ⟨c, hc, hne⟩
    refine ⟨c, hc, ?_⟩
    intro he
    rw [he] at hne
    simp at hne
  · exact List.filter_sublist _

/-- C8, witness: the short row of the concrete file is kept with a
nonempty cell. -/
theorem C8_witness :
    ∃ c ∈ [['x'], ['y']], c ≠ [] :=
  (C8_amended_rows_kept_unpadded csvShortRow).1 [['x'], ['y']] (by decide)

/-! ### Claim C9 — COMPLETED is terminal -/

/-- C9.  Within the status writes of one processing job, COMPLETED
appears only as the final status — nothing is ever written after it —
and every upload appends a brand-new PENDING record whose id differs
from all stored records, leaving existing records (including completed
ones) unchanged. -/
theorem C9_completed_terminal_new_job :
    (∀ (outcome : Except String Unit) (i : Nat),
      (statusHistory outcome)[i]? = some ProcessingStatus.COMPLETED →
      i + 1 = (statusHistory outcome).length) ∧
    (∀ store : List FileUpload,
      (uploadFile store).1 =
        store ++ [⟨(uploadFile store).2, ProcessingStatus.PENDING⟩] ∧
      ∀ j ∈ store, j ∈ (uploadFile store).1 ∧ j.id ≠ (uploadFile store).2) := by
  constructor
  · intro outcome i h
    cases outcome with
    | ok u =>
      rcases i with _ | _ | _ | n
      · simp [statusHistory] at h
      · simp [statusHistory] at h
      · rfl
      · simp [statusHistory] at h
    | error e =>
      rcases i with _ | _ | _ | n <;> simp [statusHistory] at h
  · intro store
    refine ⟨rfl, fun j hj => ⟨List.mem_append_left _ hj, ?_⟩⟩
    intro he
    have hlt := id_lt_freshId store j hj
    rw [show (uploadFile store).2 = freshId store from rfl] at he
    rw [he] at hlt
    exact lt_irrefl _ hlt

/-- C9, witness: the COMPLETED entry of a successful history is its last
entry, and uploading over a store holding a completed job keeps that job
and picks a different id. -/
theorem C9_witness :
    2 + 1 = (statusHistory (Except.ok ())).length ∧
    completedJob ∈ (uploadFile [completedJob]).1 ∧
    completedJob.id ≠ (uploadFile [completedJob]).2 :=
  ⟨C9_completed_terminal_new_job.1 (Except.ok ()) 2 (by decide),
   (C9_completed_terminal_new_job.2 [completedJob]).2 completedJob (by decide)⟩

/-! ### Claim C10 — NaN overall confidence -/

/-- C10.  The reported overall confidence is the sum of the matched
records' confidences divided by the number of matches, with no guard for
the empty case: whenever the oracle response parses to a present-but-
empty matches list, the divisor is `0` and the result is the JS `NaN`
(embedded as `none`) — not `0`. -/
theorem C10_empty_matches_nan (csv : List Char) (st : List Student)
    (f : OraclePrompt → OracleOutcome) (ms : List MatchRec)
    (u : Option (List UnmatchedRec))
    (hne : csv ≠ []) (h2 : 2 ≤ (parseRows csv).length)
    (hf : f (promptOf csv st) = Except.ok (some ⟨some ms, u⟩)) :
    processAttendance csv st f = ApiOutcome.ok
      { totalRows := (parseRows csv).length - 1
        headers := (parseRows csv).headD []
        matchList := ms
        unmatchedList := u.getD []
        confidence := jsDiv (sumConf ms) ms.length } ∧
    (ms = [] → jsDiv (sumConf ms) ms.length = none ∧
      ∀ q : ℚ, jsDiv (sumConf ms) ms.length ≠ some q) := by
  have hcsv : csv.isEmpty = false := by
    cases csv
    · exact absurd rfl hne
    · rfl
  have hlt : ¬ (parseRows csv).length < 2 := Nat.not_lt.mpr h2
  constructor
  · simp [processAttendance, hcsv, hlt, hf, overallConfidence,
      List.length_drop]
  · intro hms
    subst hms
    simp [jsDiv]

/-- C10, witness: an empty parsed matches list yields `NaN`, not `0`. -/
theorem C10_witness :
    processAttendance csvTwoRows [] (fun _ => Except.ok (some aiEmpty)) =
      ApiOutcome.ok
        { totalRows := (parseRows csvTwoRows).length - 1
          headers := (parseRows csvTwoRows).headD []
          matchList := []
          unmatchedList := (some ([] : List UnmatchedRec)).getD []
          confidence := jsDiv (sumConf []) ([] : List MatchRec).length } ∧
    jsDiv (sumConf []) ([] : List MatchRec).length = none :=
  ⟨(C10_empty_matches_nan csvTwoRows [] (fun _ => Except.ok (some aiEmpty))
      [] (some []) (by decide) (by decide) rfl).1,
   ((C10_empty_matches_nan csvTwoRows [] (fun _ => Except.ok (some aiEmpty))
      [] (some []) (by decide) (by decide) rfl).2 rfl).1⟩

end Smartattend
